import Mathlib

/-!
Shallow embedding of the email decoding core of go-smtpsrv (src/parser.go) and
theorems settling the specification's claims against it.

Modelling conventions:
- Go byte strings (message bodies, decoded content) are `List Nat`, one entry per
  byte; Go `string` header values are Lean `String`.
- Fallible Go code returning `(value, error)` is modelled either as `Except String`
  or, where the Go code threads partial results together with the error, as a
  product with an `Option String` error component.
- External collaborators (the `net/mail` address parser, `time.Parse`, the chardet
  statistical detector, the ianaindex charset registry) are taken as oracle
  parameters; everything written in src/parser.go itself is translated directly.
- Go's unbounded multipart recursion is modelled with an explicit fuel parameter
  that is consumed only when descending into a nested multipart part; with fuel at
  least the nesting depth of the input, the model agrees with the Go code, which
  imposes no cap (spec section 9).
-/

deriving instance DecidableEq for Except

namespace Smtpsrv

/-- Bytes of an ASCII string: the form in which concrete Go byte strings enter the model. -/
def asciiBytes (s : String) : List Nat := s.toList.map Char.toNat

/-- Go strings.TrimSuffix(s, a newline string): drops exactly one trailing LF byte when
present (parser.go lines 60, 72, 197, 204, 259, 271, 334, 346). -/
def trimNewline (s : List Nat) : List Nat :=
  if s.getLast? = some 10 then s.dropLast else s

/-- Go strings.Trim with a cutset: removes all leading and trailing characters that are
in the cutset. -/
def trimCut (cut : List Char) (s : String) : String :=
  ⟨((s.toList.dropWhile (fun c => cut.contains c)).reverse.dropWhile
      (fun c => cut.contains c)).reverse⟩

/-- ASCII lowercasing of one character: Go strings.ToLower restricted to ASCII, which
coincides with the full Unicode version on every token in scope. -/
def asciiLower (c : Char) : Char :=
  if 65 ≤ c.toNat ∧ c.toNat ≤ 90 then Char.ofNat (c.toNat + 32) else c

/-- ASCII lowercasing of a string. -/
def asciiToLower (s : String) : String := ⟨s.toList.map asciiLower⟩

/-- Go strings.TrimSpace: removes leading and trailing whitespace (space, tab, LF,
vertical tab, form feed, CR). -/
def goTrimSpace (s : String) : String :=
  trimCut [' ', '\t', '\n', Char.ofNat 11, Char.ofNat 12, '\r'] s

/-- Splits a string on a single-character separator, as Go strings.Split does for the
one-character separators the source uses. -/
def splitOnCharAux (sep : Char) : List Char → List Char → List String
  | [], acc => [⟨acc.reverse⟩]
  | c :: rest, acc =>
      if c = sep then (⟨acc.reverse⟩ : String) :: splitOnCharAux sep rest []
      else splitOnCharAux sep rest (c :: acc)

/-- Go strings.Split with a one-character separator. -/
def splitOnChar (sep : Char) (s : String) : List String := splitOnCharAux sep s.toList []

/-- First semicolon-separated segment of a header value: Go strings.Split(s, a
semicolon)[0] (parser.go line 433). -/
def firstSegment (s : String) : String := (splitOnChar ';' s).headD ""

/-- Byte value of the standard base64 alphabet digit with index n
(Go encoding/base64 StdEncoding alphabet: A-Z, a-z, 0-9, plus, slash). -/
def b64chr (n : Nat) : Nat :=
  if n < 26 then 65 + n
  else if n < 52 then 97 + (n - 26)
  else if n < 62 then 48 + (n - 52)
  else if n = 62 then 43
  else 47

/-- Inverse digit lookup for the standard base64 alphabet. -/
def b64dec (b : Nat) : Option Nat :=
  if 65 ≤ b ∧ b ≤ 90 then some (b - 65)
  else if 97 ≤ b ∧ b ≤ 122 then some (26 + (b - 97))
  else if 48 ≤ b ∧ b ≤ 57 then some (52 + (b - 48))
  else if b = 43 then some 62
  else if b = 47 then some 63
  else none

/-- Standard base64 encoding of a byte sequence, with padding
(Go encoding/base64 StdEncoding). Byte 61 is the padding character. -/
def b64encode : List Nat → List Nat
  | [] => []
  | [a] => [b64chr (a / 4), b64chr (a % 4 * 16), 61, 61]
  | [a, b] => [b64chr (a / 4), b64chr (a % 4 * 16 + b / 16), b64chr (b % 16 * 4), 61]
  | a :: b :: c :: rest =>
      b64chr (a / 4) :: b64chr (a % 4 * 16 + b / 16) :: b64chr (b % 16 * 4 + c / 64) ::
        b64chr (c % 64) :: b64encode rest

/-- Standard base64 decoding (Go encoding/base64 StdEncoding decoder, after the
CR/LF skipping done below in decodeContent): 4 digits to 3 bytes, padding accepted only
in the final quantum, and, as in Go's default non-strict mode, unused trailing bits of a
padded quantum are ignored. -/
def b64decode : List Nat → Except String (List Nat)
  | [] => .ok []
  | c1 :: c2 :: c3 :: c4 :: rest =>
      if c3 = 61 ∧ c4 = 61 ∧ rest = [] then
        match b64dec c1, b64dec c2 with
        | some a, some b => .ok [a * 4 + b / 16]
        | _, _ => .error "illegal base64 data"
      else if c4 = 61 ∧ rest = [] then
        match b64dec c1, b64dec c2, b64dec c3 with
        | some a, some b, some c => .ok [a * 4 + b / 16, b % 16 * 16 + c / 4]
        | _, _, _ => .error "illegal base64 data"
      else
        match b64dec c1, b64dec c2, b64dec c3, b64dec c4 with
        | some a, some b, some c, some d =>
            match b64decode rest with
            | .ok tail => .ok ((a * 4 + b / 16) :: (b % 16 * 16 + c / 4) :: (c % 4 * 64 + d) :: tail)
            | .error e => .error e
        | _, _, _, _ => .error "illegal base64 data"
  | _ => .error "illegal base64 data"

/-- Value of an ASCII hexadecimal digit byte. -/
def hexVal (b : Nat) : Option Nat :=
  if 48 ≤ b ∧ b ≤ 57 then some (b - 48)
  else if 65 ≤ b ∧ b ≤ 70 then some (b - 65 + 10)
  else if 97 ≤ b ∧ b ≤ 102 then some (b - 97 + 10)
  else none

/-- Models the Go mime/quotedprintable reader (external library): an equals byte (61)
followed by CRLF or LF is a soft line break, an equals byte followed by two hex digits
is an escaped byte, anything else after an equals byte is an error; other bytes pass
through. Line-length policing of the Go reader is not modelled; no claim depends on it. -/
def qpDecode : List Nat → Except String (List Nat)
  | [] => .ok []
  | 61 :: 13 :: 10 :: rest => qpDecode rest
  | 61 :: 10 :: rest => qpDecode rest
  | 61 :: h1 :: h2 :: rest =>
      match hexVal h1, hexVal h2 with
      | some a, some b =>
          match qpDecode rest with
          | .ok tail => .ok ((a * 16 + b) :: tail)
          | .error e => .error e
      | _, _ => .error "quotedprintable: invalid hex byte"
  | [61] => .error "quotedprintable: invalid bytes after equal sign"
  | [61, _] => .error "quotedprintable: invalid bytes after equal sign"
  | b :: rest =>
      match qpDecode rest with
      | .ok tail => .ok (b :: tail)
      | .error e => .error e

/-- Content Decoder (parser.go decodeContent, lines 438–474): the declared
Content-Transfer-Encoding token is trimmed and lowercased; base64 and quoted-printable
are decoded eagerly, 7bit, 8bit, binary and the empty token pass the bytes through, and
any other token is the unknown-encoding error carrying the original token. The filter
models the Go base64 decoder's skipping of CR and LF bytes. -/
def decodeContent (content : List Nat) (encoding : String) : Except String (List Nat) :=
  let enc := asciiToLower (goTrimSpace encoding)
  if enc = "base64" then
    b64decode (content.filter (fun b => !(b == 10 || b == 13)))
  else if enc = "7bit" ∨ enc = "8bit" ∨ enc = "binary" then
    .ok content
  else if enc = "quoted-printable" ∨ enc = "quotedprintable" then
    qpDecode content
  else if enc = "" then
    .ok content
  else
    .error ("unknown encoding: " ++ encoding)

/-- Charset name normalization (parser.go convertToUtf8, lines 110–114): the name is
lowercased and the three names gb-18030, gb18030 and gb2312 are all aliased to the
single gbk codec before the registry lookup. Go's Unicode strings.ToLower restricted
to the ASCII names in scope coincides with String.toLower. -/
def normalizeCharset (cs : String) : String :=
  let c := asciiToLower cs
  if c = "gb-18030" ∨ c = "gb18030" ∨ c = "gb2312" then "gbk" else c

/-- Charset Converter (parser.go convertToUtf8, lines 110–120). The ianaindex registry
and the x/text decoders are external; the model takes the registry as a parameter from
normalized names to total byte codecs (x/text decoders substitute U+FFFD for
undecodable input rather than fail, so a codec is a total function); a name the registry
does not resolve is the terminal error. -/
def convertToUtf8 (lookup : String → Option (List Nat → List Nat)) (charset : String)
    (input : List Nat) : Except String (List Nat) :=
  match lookup (normalizeCharset charset) with
  | none => .error ("unsupported charset: " ++ normalizeCharset charset)
  | some codec => .ok (codec input)

/-- parser.go convertToUtf8String (lines 100–108): converts and reads the stream back
into a string. The Go function returns the empty string alongside the error; the caller
in ParseEmail materializes that empty string, which the model reproduces at the use
site (resolveBody). -/
def convertToUtf8String (lookup : String → Option (List Nat → List Nat)) (charset : String)
    (s : List Nat) : Except String (List Nat) :=
  convertToUtf8 lookup charset s

/-- A MIME body part as surfaced to the walkers by Go's mime/multipart reader:
contentType is the media type produced by the external mime.ParseMediaType on the
part's Content-Type header (carried as a field, with the raw header kept alongside),
transferEncoding, fileName and contentId are the raw header values the source consults,
body is the fully read content, and subparts are the nested parts when the part is
itself a multipart body. RFC 2047 encoded words in filenames and content-ids
(decodeMimeSentence) are not modelled: the values considered here carry no encoded
words, on which that decoding is the identity. -/
inductive Part : Type where
  | mk (contentType rawContentType transferEncoding fileName contentId : String)
      (body : List Nat) (subparts : List Part)

def Part.contentType : Part → String
  | .mk ct _ _ _ _ _ _ => ct

def Part.rawContentType : Part → String
  | .mk _ raw _ _ _ _ _ => raw

def Part.transferEncoding : Part → String
  | .mk _ _ te _ _ _ _ => te

def Part.fileName : Part → String
  | .mk _ _ _ fn _ _ _ => fn

def Part.contentId : Part → String
  | .mk _ _ _ _ cid _ _ => cid

def Part.body : Part → List Nat
  | .mk _ _ _ _ _ b _ => b

def Part.subparts : Part → List Part
  | .mk _ _ _ _ _ _ ps => ps

/-- Attachment (parser.go lines 552–557): filename, content type with parameters
stripped, decoded bytes. -/
structure Attachment where
  filename : String
  contentType : String
  data : List Nat
deriving DecidableEq

/-- EmbeddedFile (parser.go lines 559–564): content id, raw content type, decoded bytes. -/
structure EmbeddedFile where
  cid : String
  contentType : String
  data : List Nat
deriving DecidableEq

/-- parser.go isEmbeddedFile (lines 402–404): a part with a declared
Content-Transfer-Encoding header. -/
def isEmbeddedFile (p : Part) : Bool := p.transferEncoding ≠ ""

/-- parser.go isAttachment (lines 420–422): a part with a declared filename. -/
def isAttachment (p : Part) : Bool := p.fileName ≠ ""

/-- parser.go decodeEmbeddedFile (lines 406–418): decode the transfer encoding, strip
angle brackets from the content id. -/
def decodeEmbeddedFile (p : Part) : Except String EmbeddedFile :=
  match decodeContent p.body p.transferEncoding with
  | .error e => .error e
  | .ok d => .ok ⟨trimCut ['<', '>'] p.contentId, p.rawContentType, d⟩

/-- parser.go decodeAttachment (lines 424–436): decode the transfer encoding, keep only
the first semicolon-separated segment of the raw content type. -/
def decodeAttachment (p : Part) : Except String Attachment :=
  match decodeContent p.body p.transferEncoding with
  | .error e => .error e
  | .ok d => .ok ⟨p.fileName, firstSegment p.rawContentType, d⟩

/-- Error used when the model's fuel underestimates the nesting depth of the input;
never reached in any claim, where fuel exceeds the depth. -/
def fuelMsg : String := "model: multipart nesting exceeds fuel"

/-- Loop body of parser.go parseMultipartRelated (lines 174–229), walking the parts in
order with the text, HTML and embedded-file accumulators. The text branches read the
part content raw: the related walker does NOT call decodeContent on text parts (lines
191–204). nested performs the recursive walk of a multipart/alternative part; on a
nested error the OUTER accumulators are returned with the error (lines 206–209). -/
def parseMultipartRelatedLoop
    (nested : List Part → List Nat × List Nat × List EmbeddedFile × Option String) :
    List Part → List Nat → List Nat → List EmbeddedFile →
      List Nat × List Nat × List EmbeddedFile × Option String
  | [], tb, hb, efs => (tb, hb, efs, none)
  | p :: rest, tb, hb, efs =>
    if p.contentType = "text/plain" then
      parseMultipartRelatedLoop nested rest (tb ++ trimNewline p.body) hb efs
    else if p.contentType = "text/html" then
      parseMultipartRelatedLoop nested rest tb (hb ++ trimNewline p.body) efs
    else if p.contentType = "multipart/alternative" then
      match nested p.subparts with
      | (_, _, _, some e) => (tb, hb, efs, some e)
      | (t, h, ef, none) =>
          parseMultipartRelatedLoop nested rest (tb ++ t) (hb ++ h) (efs ++ ef)
    else if isEmbeddedFile p then
      match decodeEmbeddedFile p with
      | .error e => (tb, hb, efs, some e)
      | .ok ef => parseMultipartRelatedLoop nested rest tb hb (efs ++ [ef])
    else
      (tb, hb, efs, some ("Can't process multipart/related inner mime type: " ++
        p.contentType))

/-- Loop body of parser.go parseMultipartAlternative (lines 231–296): like the related
walker but the text branches DO decode the transfer encoding first (lines 249–259,
261–271), and the nested branch handles multipart/related parts. -/
def parseMultipartAlternativeLoop
    (nested : List Part → List Nat × List Nat × List EmbeddedFile × Option String) :
    List Part → List Nat → List Nat → List EmbeddedFile →
      List Nat × List Nat × List EmbeddedFile × Option String
  | [], tb, hb, efs => (tb, hb, efs, none)
  | p :: rest, tb, hb, efs =>
    if p.contentType = "text/plain" then
      match decodeContent p.body p.transferEncoding with
      | .error e => (tb, hb, efs, some e)
      | .ok d => parseMultipartAlternativeLoop nested rest (tb ++ trimNewline d) hb efs
    else if p.contentType = "text/html" then
      match decodeContent p.body p.transferEncoding with
      | .error e => (tb, hb, efs, some e)
      | .ok d => parseMultipartAlternativeLoop nested rest tb (hb ++ trimNewline d) efs
    else if p.contentType = "multipart/related" then
      match nested p.subparts with
      | (_, _, _, some e) => (tb, hb, efs, some e)
      | (t, h, ef, none) =>
          parseMultipartAlternativeLoop nested rest (tb ++ t) (hb ++ h) (efs ++ ef)
    else if isEmbeddedFile p then
      match decodeEmbeddedFile p with
      | .error e => (tb, hb, efs, some e)
      | .ok ef => parseMultipartAlternativeLoop nested rest tb hb (efs ++ [ef])
    else
      (tb, hb, efs, some ("Can't process multipart/alternative inner mime type: " ++
        p.contentType))

mutual

/-- parser.go parseMultipartAlternative with explicit nesting fuel: descending into a
nested multipart/related part consumes one unit of fuel; sibling iteration does not. -/
def parseMultipartAlternative : Nat → List Part → List Nat → List Nat → List EmbeddedFile →
    List Nat × List Nat × List EmbeddedFile × Option String
  | 0, parts, tb, hb, efs =>
      parseMultipartAlternativeLoop (fun _ => ([], [], [], some fuelMsg)) parts tb hb efs
  | Nat.succ f, parts, tb, hb, efs =>
      parseMultipartAlternativeLoop (fun ps => parseMultipartRelated f ps [] [] [])
        parts tb hb efs

/-- parser.go parseMultipartRelated with explicit nesting fuel. -/
def parseMultipartRelated : Nat → List Part → List Nat → List Nat → List EmbeddedFile →
    List Nat × List Nat × List EmbeddedFile × Option String
  | 0, parts, tb, hb, efs =>
      parseMultipartRelatedLoop (fun _ => ([], [], [], some fuelMsg)) parts tb hb efs
  | Nat.succ f, parts, tb, hb, efs =>
      parseMultipartRelatedLoop (fun ps => parseMultipartAlternative f ps [] [] [])
        parts tb hb efs

end

/-- Loop body of parser.go parseMultipartMixed (lines 298–360). A nested
multipart/alternative or multipart/related part ASSIGNS the nested walk's text, HTML
and embedded-file results over the accumulators (lines 313–322), discarding what was
accumulated so far (only the attachments accumulator survives); on a nested error the
overwritten accumulators are returned with the error. Non-text, non-nested parts are
attachments when they declare a filename and are otherwise an error: this walker has no
embedded-file branch (lines 347–356). -/
def parseMultipartMixedLoop
    (nestedA nestedR : List Part → List Nat × List Nat × List EmbeddedFile × Option String) :
    List Part → List Nat → List Nat → List Attachment → List EmbeddedFile →
      List Nat × List Nat × List Attachment × List EmbeddedFile × Option String
  | [], tb, hb, atts, efs => (tb, hb, atts, efs, none)
  | p :: rest, tb, hb, atts, efs =>
    if p.contentType = "multipart/alternative" then
      match nestedA p.subparts with
      | (t, h, ef, some e) => (t, h, atts, ef, some e)
      | (t, h, ef, none) => parseMultipartMixedLoop nestedA nestedR rest t h atts ef
    else if p.contentType = "multipart/related" then
      match nestedR p.subparts with
      | (t, h, ef, some e) => (t, h, atts, ef, some e)
      | (t, h, ef, none) => parseMultipartMixedLoop nestedA nestedR rest t h atts ef
    else if p.contentType = "text/plain" then
      match decodeContent p.body p.transferEncoding with
      | .error e => (tb, hb, atts, efs, some e)
      | .ok d => parseMultipartMixedLoop nestedA nestedR rest (tb ++ trimNewline d) hb atts efs
    else if p.contentType = "text/html" then
      match decodeContent p.body p.transferEncoding with
      | .error e => (tb, hb, atts, efs, some e)
      | .ok d => parseMultipartMixedLoop nestedA nestedR rest tb (hb ++ trimNewline d) atts efs
    else if isAttachment p then
      match decodeAttachment p with
      | .error e => (tb, hb, atts, efs, some e)
      | .ok a => parseMultipartMixedLoop nestedA nestedR rest tb hb (atts ++ [a]) efs
    else
      (tb, hb, atts, efs, some ("Unknown multipart/mixed nested mime type: " ++
        p.contentType))

/-- parser.go parseMultipartMixed with explicit nesting fuel for the nested walkers. -/
def parseMultipartMixed (fuel : Nat) (parts : List Part) (tb hb : List Nat)
    (atts : List Attachment) (efs : List EmbeddedFile) :
    List Nat × List Nat × List Attachment × List EmbeddedFile × Option String :=
  match fuel with
  | 0 =>
      parseMultipartMixedLoop (fun _ => ([], [], [], some fuelMsg))
        (fun _ => ([], [], [], some fuelMsg)) parts tb hb atts efs
  | Nat.succ f =>
      parseMultipartMixedLoop (fun ps => parseMultipartAlternative f ps [] [] [])
        (fun ps => parseMultipartRelated f ps [] [] []) parts tb hb atts efs

/-- Top-level message input to ParseEmail, after Go's mail.ReadMessage (external) has
split headers from body: the raw Content-Type header value, the media type that the
external mime.ParseMediaType yields on it when nonempty, the Content-Transfer-Encoding
header, the body bytes, the body's parts when it is multipart, and the original charset
seeded by createEmailFromHeader's Subject encoded-word heuristic (parser.go lines
126–130). -/
structure TopMessage where
  contentTypeHeader : String
  mediaType : String
  transferEncoding : String
  body : List Nat
  subparts : List Part
  originalCharset : String
deriving Inhabited

/-- Decoded email result: the fields of parser.go's Email struct that the body decoding
populates (lines 566–600). content is the opaque decoded stream of the default branch. -/
structure Email where
  contentType : String
  originalCharset : String
  textBody : List Nat
  htmlBody : List Nat
  attachments : List Attachment
  embeddedFiles : List EmbeddedFile
  content : Option (List Nat)
deriving DecidableEq

/-- parser.go parseContentType (lines 165–172): an absent Content-Type header defaults
to text/plain; otherwise the external mime.ParseMediaType parses it, whose media-type
output is supplied as mediaTypeResult (its failures are outside the claims considered). -/
def parseContentType (contentTypeHeader mediaTypeResult : String) : String :=
  if contentTypeHeader = "" then "text/plain" else mediaTypeResult

/-- One body's final charset resolution (parser.go lines 77–86 for the text body and
87–96 for the HTML body): skipped when the body is empty; with a declared original
charset the body is converted with it, otherwise the detector's best guess is used when
detection succeeds; in both conversion paths the carried error err0 is OVERWRITTEN
(none on success, the conversion error with an emptied body on failure, exactly as the
Go named return err is reassigned); only when detection fails, or the body is empty, is
err0 left standing and the body unchanged. -/
def resolveBody (detect : List Nat → Option String)
    (lookup : String → Option (List Nat → List Nat)) (origCharset : String)
    (body : List Nat) (err0 : Option String) : List Nat × Option String :=
  if body ≠ [] then
    if origCharset ≠ "" then
      match convertToUtf8String lookup origCharset body with
      | .ok t => (t, none)
      | .error e => ([], some e)
    else
      match detect body with
      | some cs =>
          match convertToUtf8String lookup cs body with
          | .ok t => (t, none)
          | .error e => ([], some e)
      | none => (body, err0)
  else (body, err0)

/-- Final stage of parser.go ParseEmail (lines 76–97): charset resolution applied to the
text body and then to the HTML body with the error value threaded through both, then
the Go-style (email, err) pair is returned. Attachments, embedded files and the opaque
content are passed through untouched. -/
def finishCharset (detect : List Nat → Option String)
    (lookup : String → Option (List Nat → List Nat)) (msg : TopMessage)
    (tb hb : List Nat) (atts : List Attachment) (efs : List EmbeddedFile)
    (content : Option (List Nat)) (err0 : Option String) : Email × Option String :=
  match resolveBody detect lookup msg.originalCharset tb err0 with
  | (tb1, err1) =>
    match resolveBody detect lookup msg.originalCharset hb err1 with
    | (hb1, err2) =>
        (⟨msg.contentTypeHeader, msg.originalCharset, tb1, hb1, atts, efs, content⟩, err2)

/-- parser.go ParseEmail (lines 29–98), from the point where headers are parsed and the
top-level content type classified. The three multipart branches (lines 47–52) assign the
walker's partial results AND its error and fall through to the charset stage without an
early return; the single-part text branches (lines 53–72) return early on a decode
error, skipping the charset stage; the default branch (lines 73–75) stores the decode
error without returning early. createEmailFromHeader's only contribution to body
decoding is the seeded original charset, carried in msg. -/
def ParseEmail (fuel : Nat) (detect : List Nat → Option String)
    (lookup : String → Option (List Nat → List Nat)) (msg : TopMessage) :
    Email × Option String :=
  let ct := parseContentType msg.contentTypeHeader msg.mediaType
  if ct = "multipart/mixed" then
    match parseMultipartMixed fuel msg.subparts [] [] [] [] with
    | (tb, hb, atts, efs, werr) => finishCharset detect lookup msg tb hb atts efs none werr
  else if ct = "multipart/alternative" then
    match parseMultipartAlternative fuel msg.subparts [] [] [] with
    | (tb, hb, efs, werr) => finishCharset detect lookup msg tb hb [] efs none werr
  else if ct = "multipart/related" then
    match parseMultipartRelated fuel msg.subparts [] [] [] with
    | (tb, hb, efs, werr) => finishCharset detect lookup msg tb hb [] efs none werr
  else if ct = "text/plain" then
    match decodeContent msg.body msg.transferEncoding with
    | .error e => (⟨msg.contentTypeHeader, msg.originalCharset, [], [], [], [], none⟩, some e)
    | .ok d => finishCharset detect lookup msg (trimNewline d) [] [] [] none none
  else if ct = "text/html" then
    match decodeContent msg.body msg.transferEncoding with
    | .error e => (⟨msg.contentTypeHeader, msg.originalCharset, [], [], [], [], none⟩, some e)
    | .ok d => finishCharset detect lookup msg [] (trimNewline d) [] [] none none
  else
    match decodeContent msg.body msg.transferEncoding with
    | .error e => finishCharset detect lookup msg [] [] [] [] none (some e)
    | .ok d => finishCharset detect lookup msg [] [] [] [] (some d) none

/-- Address (net/mail.Address): display name and mailbox. -/
structure Address where
  name : String
  address : String
deriving DecidableEq

/-- Raw header values consumed by createEmailFromHeader, one field per header.Get call
(parser.go lines 131–148). -/
structure HeaderValues where
  subject : String
  fromH : String
  senderH : String
  replyToH : String
  toH : String
  ccH : String
  bccH : String
  dateH : String
  resentFromH : String
  resentSenderH : String
  resentToH : String
  resentCcH : String
  resentBccH : String
  resentMessageIdH : String
  messageIdH : String
  inReplyToH : String
  referencesH : String
  resentDateH : String
deriving DecidableEq

/-- Error state of Go's header parsing context (parser.go headerParser, lines 476–479).
The Go methods below take the receiver BY VALUE: an assignment to hp.err inside a
method mutates the method's copy, so the model returns that copy's final err as a
second component, which the caller — like the compiled Go program — discards. -/
structure HeaderCtx where
  err : Option String
deriving DecidableEq

/-- parser.go headerParser.parseAddress (lines 481–493); mail.ParseAddress is external
and passed as addrParse. Empty or space-and-newline-only values yield nil without
touching the error. -/
def parseAddress (addrParse : String → Except String Address) (hp : HeaderCtx)
    (s : String) : Option Address × Option String :=
  if hp.err.isSome then (none, hp.err)
  else if trimCut [' ', '\n'] s ≠ "" then
    match addrParse s with
    | .ok a => (some a, none)
    | .error e => (none, some e)
  else (none, hp.err)

/-- parser.go headerParser.parseAddressList (lines 495–506); mail.ParseAddressList is
external and passed as addrListParse. -/
def parseAddressList (addrListParse : String → Except String (List Address))
    (hp : HeaderCtx) (s : String) : List Address × Option String :=
  if hp.err.isSome then ([], hp.err)
  else if trimCut [' ', '\n'] s ≠ "" then
    match addrListParse s with
    | .ok as => (as, none)
    | .error e => ([], some e)
  else ([], hp.err)

/-- The ordered date layouts of parser.go headerParser.parseTime (lines 513–518):
time.RFC1123Z, its day-without-leading-zero variant, and each of those with a trailing
parenthesized zone name. -/
def goTimeFormats : List String :=
  ["Mon, 02 Jan 2006 15:04:05 -0700",
   "Mon, 2 Jan 2006 15:04:05 -0700",
   "Mon, 02 Jan 2006 15:04:05 -0700 (MST)",
   "Mon, 2 Jan 2006 15:04:05 -0700 (MST)"]

/-- The format loop of parser.go headerParser.parseTime (lines 520–525): the first
layout that parses wins; when every layout fails the zero time (modelled none) is left
with the LAST layout's error. time.Parse is external and passed as timeParse. -/
def tryFormats (timeParse : String → String → Except String Nat) (s : String) :
    List String → Option Nat × Option String
  | [] => (none, none)
  | [f] =>
      match timeParse f s with
      | .ok t => (some t, none)
      | .error e => (none, some e)
  | f :: rest =>
      match timeParse f s with
      | .ok t => (some t, none)
      | .error _ => tryFormats timeParse s rest

/-- parser.go headerParser.parseTime (lines 508–528): empty values yield the zero time
(none) with the error untouched. -/
def parseTime (timeParse : String → String → Except String Nat) (hp : HeaderCtx)
    (s : String) : Option Nat × Option String :=
  if hp.err.isSome ∨ s = "" then (none, hp.err)
  else tryFormats timeParse s goTimeFormats

/-- parser.go headerParser.parseMessageId (lines 530–536): strip angle brackets and
spaces. -/
def parseMessageId (hp : HeaderCtx) (s : String) : String :=
  if hp.err.isSome then "" else trimCut ['<', '>', ' '] s

/-- parser.go headerParser.parseMessageIdList (lines 538–550): split on spaces, strip
each non-blank token as a message id. -/
def parseMessageIdList (hp : HeaderCtx) (s : String) : List String :=
  if hp.err.isSome then []
  else (splitOnChar ' ' s).filterMap
    (fun p => if trimCut [' ', '\n'] p ≠ "" then some (parseMessageId hp p) else none)

/-- The structured header fields produced by createEmailFromHeader. subject carries the
raw value: decodeMimeSentence is not modelled and no claim inspects it. -/
structure HeaderEmail where
  subject : String
  sender : Option Address
  fromA : List Address
  replyTo : List Address
  toA : List Address
  cc : List Address
  bcc : List Address
  date : Option Nat
  messageId : String
  inReplyTo : List String
  references : List String
  resentFrom : List Address
  resentSender : Option Address
  resentTo : List Address
  resentDate : Option Nat
  resentCc : List Address
  resentBcc : List Address
  resentMessageId : String
deriving DecidableEq

/-- parser.go createEmailFromHeader (lines 122–163), field by field in source order.
Every parse call below returns (value, copy's err); the caller keeps only the value,
because the Go methods take the headerParser receiver by value and the shared hp is
never mutated. The final check of hp.err (source lines 150–153) therefore always sees
none. The Subject charset regular-expression heuristic only seeds
TopMessage.originalCharset and decodeHeaderMime never fails (line 399), so neither
contributes an error here. -/
def createEmailFromHeader (addrParse : String → Except String Address)
    (addrListParse : String → Except String (List Address))
    (timeParse : String → String → Except String Nat) (h : HeaderValues) :
    HeaderEmail × Option String :=
  let hp : HeaderCtx := ⟨none⟩
  let fromA := (parseAddressList addrListParse hp h.fromH).1
  let sender := (parseAddress addrParse hp h.senderH).1
  let replyTo := (parseAddressList addrListParse hp h.replyToH).1
  let toA := (parseAddressList addrListParse hp h.toH).1
  let cc := (parseAddressList addrListParse hp h.ccH).1
  let bcc := (parseAddressList addrListParse hp h.bccH).1
  let date := (parseTime timeParse hp h.dateH).1
  let resentFrom := (parseAddressList addrListParse hp h.resentFromH).1
  let resentSender := (parseAddress addrParse hp h.resentSenderH).1
  let resentTo := (parseAddressList addrListParse hp h.resentToH).1
  let resentCc := (parseAddressList addrListParse hp h.resentCcH).1
  let resentBcc := (parseAddressList addrListParse hp h.resentBccH).1
  let resentMessageId := parseMessageId hp h.resentMessageIdH
  let messageId := parseMessageId hp h.messageIdH
  let inReplyTo := parseMessageIdList hp h.inReplyToH
  let references := parseMessageIdList hp h.referencesH
  let resentDate := (parseTime timeParse hp h.resentDateH).1
  let email : HeaderEmail := ⟨h.subject, sender, fromA, replyTo, toA, cc, bcc, date,
    messageId, inReplyTo, references, resentFrom, resentSender, resentTo, resentDate,
    resentCc, resentBcc, resentMessageId⟩
  if hp.err.isSome then (email, hp.err) else (email, none)

/-- Detector oracle that always reports utf-8. -/
def detectUtf8 : List Nat → Option String := fun _ => some "utf-8"

/-- Registry oracle resolving only utf-8, to the identity codec. -/
def lookupId : String → Option (List Nat → List Nat) :=
  fun cs => if cs = "utf-8" then some (fun b => b) else none

/-- Registry oracle resolving every name to the identity codec. -/
def lookupIdAll : String → Option (List Nat → List Nat) := fun _ => some (fun b => b)

/-- Detector oracle reporting an unsupported name for the body T and utf-8 otherwise. -/
def detectSplit : List Nat → Option String :=
  fun b => if b = asciiBytes "T" then some "bogus" else some "utf-8"

/-- A text/plain part declaring base64 transfer encoding, body holding the base64
encoding of hello. -/
def b64TextPart : Part :=
  .mk "text/plain" "text/plain" "base64" "" "" (asciiBytes "aGVsbG8=") []

/-- An image part with a transfer encoding but no filename. -/
def orphanPart : Part := .mk "image/png" "image/png" "base64" "" "cid1" [] []

/-- A plain text part with no transfer encoding. -/
def okTextPart : Part := .mk "text/plain" "text/plain" "" "" "" (asciiBytes "hello\n") []

/-- A text part declaring an unknown transfer encoding. -/
def badEncPart : Part :=
  .mk "text/plain" "text/plain" "quoted-nonsense" "" "" (asciiBytes "zzz") []

/-- A multipart/alternative message whose first part accumulates text and whose second
part fails with an unknown transfer encoding. -/
def altBadMsg : TopMessage :=
  ⟨"multipart/alternative; boundary=b", "multipart/alternative", "", [],
    [okTextPart, badEncPart], ""⟩

/-- A plain text part with body T. -/
def textPartT : Part := .mk "text/plain" "text/plain" "" "" "" (asciiBytes "T\n") []

/-- An HTML part with body H. -/
def htmlPartH : Part := .mk "text/html" "text/html" "" "" "" (asciiBytes "H\n") []

/-- A multipart/mixed message with one text and one HTML part and no declared charset. -/
def mixedTHMsg : TopMessage :=
  ⟨"multipart/mixed; boundary=b", "multipart/mixed", "", [], [textPartT, htmlPartH], ""⟩

/-- A single-part message with absent Content-Type, no transfer encoding, no declared
charset and the CRLF-terminated body of claim C4. -/
def helloMsg : TopMessage := ⟨"", "", "", asciiBytes "hello\r\n", [], ""⟩

/-- Address-parser oracle rejecting every value. -/
def addrFail : String → Except String Address :=
  fun s => .error ("mail: parse error in " ++ s)

/-- Address-list-parser oracle rejecting every value. -/
def addrListFail : String → Except String (List Address) :=
  fun s => .error ("mail: parse error in " ++ s)

/-- time.Parse oracle failing every layout, with an error naming the layout. -/
def timeNever : String → String → Except String Nat :=
  fun fmt s => .error ("parsing time " ++ s ++ " as " ++ fmt ++ " failed")

/-- time.Parse oracle succeeding only on the second layout. -/
def timeSecondOnly : String → String → Except String Nat :=
  fun fmt _ =>
    if fmt = "Mon, 2 Jan 2006 15:04:05 -0700" then .ok 42 else .error ("fail " ++ fmt)

/-- Header with every value empty except From, which no address parser accepts. -/
def hdrBadFrom : HeaderValues :=
  ⟨"", "bad@@", "", "", "", "", "", "", "", "", "", "", "", "", "", "", "", ""⟩

/-- Header with every value empty except Date, which no layout parses. -/
def hdrBadDate : HeaderValues :=
  ⟨"", "", "", "", "", "", "", "garbage", "", "", "", "", "", "", "", "", "", ""⟩

/-- Detector oracle that always fails. -/
def detectNone : List Nat → Option String := fun _ => none

/-- A nested multipart/alternative part holding one HTML subpart. -/
def altContainer : Part :=
  .mk "multipart/alternative" "multipart/alternative; boundary=x" "" "" "" [] [htmlPartH]

/-- A PDF part declaring a filename and base64 transfer encoding. -/
def attachPart : Part :=
  .mk "application/pdf" "application/pdf; name=a" "base64" "a.pdf" ""
    (asciiBytes "aGVsbG8=") []

/-- A part with no filename and no transfer encoding and an unhandled content type. -/
def plainOddPart : Part := .mk "video/mp4" "video/mp4" "" "" "" [] []

/-- The mixed text-and-HTML message with a declared original charset that no registry
in scope resolves. -/
def mixedDeclaredMsg : TopMessage :=
  ⟨"multipart/mixed; boundary=b", "multipart/mixed", "", [], [textPartT, htmlPartH],
    "koi8-r"⟩

lemma b64dec_b64chr : ∀ n, n < 64 → b64dec (b64chr n) = some n := by decide

lemma b64chr_not_special (n : Nat) : b64chr n ≠ 61 ∧ b64chr n ≠ 10 ∧ b64chr n ≠ 13 := by
  unfold b64chr
  split_ifs <;> omega

lemma b64chr_ne10 (n : Nat) : (b64chr n == 10) = false :=
  beq_eq_false_iff_ne.mpr (b64chr_not_special n).2.1

lemma b64chr_ne13 (n : Nat) : (b64chr n == 13) = false :=
  beq_eq_false_iff_ne.mpr (b64chr_not_special n).2.2

lemma b64encode_filter (S : List Nat) :
    (b64encode S).filter (fun b => !(b == 10 || b == 13)) = b64encode S := by
  induction S using b64encode.induct with
  | case1 => rfl
  | case2 a => simp [b64encode, List.filter, b64chr_ne10, b64chr_ne13]
  | case3 a b => simp [b64encode, List.filter, b64chr_ne10, b64chr_ne13]
  | case4 a b c rest ih =>
      simp [b64encode, List.filter, b64chr_ne10, b64chr_ne13] at ih ⊢
      exact ih

lemma b64decode_b64encode (S : List Nat) (h : ∀ x ∈ S, x < 256) :
    b64decode (b64encode S) = .ok S := by
  induction S using b64encode.induct with
  | case1 => rfl
  | case2 a =>
      have ha : a < 256 := h a (by simp)
      have d1 := b64dec_b64chr (a / 4) (by omega)
      have d2 := b64dec_b64chr (a % 4 * 16) (by omega)
      simp [b64encode, b64decode, d1, d2]
      omega
  | case3 a b =>
      have ha : a < 256 := h a (by simp)
      have hb : b < 256 := h b (by simp)
      have d1 := b64dec_b64chr (a / 4) (by omega)
      have d2 := b64dec_b64chr (a % 4 * 16 + b / 16) (by omega)
      have d3 := b64dec_b64chr (b % 16 * 4) (by omega)
      have n3 := (b64chr_not_special (b % 16 * 4)).1
      simp [b64encode, b64decode, n3, d1, d2, d3]
      omega
  | case4 a b c rest ih =>
      have ha : a < 256 := h a (by simp)
      have hb : b < 256 := h b (by simp)
      have hc : c < 256 := h c (by simp)
      have ih2 := ih (fun x hx => h x (by simp [hx]))
      have d1 := b64dec_b64chr (a / 4) (by omega)
      have d2 := b64dec_b64chr (a % 4 * 16 + b / 16) (by omega)
      have d3 := b64dec_b64chr (b % 16 * 4 + c / 64) (by omega)
      have d4 := b64dec_b64chr (c % 64) (by omega)
      have n3 := (b64chr_not_special (b % 16 * 4 + c / 64)).1
      have n4 := (b64chr_not_special (c % 64)).1
      simp [b64encode, b64decode, n3, n4, d1, d2, d3, d4, ih2]
      omega

/-- C8: for every byte sequence S, decoding a part whose body bytes are the
standard-alphabet base64 encoding of S, with Content-Transfer-Encoding declared as
base64, yields exactly S. -/
theorem base64_round_trip (S : List Nat) (h : ∀ x ∈ S, x < 256) :
    decodeContent (b64encode S) "base64" = .ok S := by
  have henc : asciiToLower (goTrimSpace "base64") = "base64" := by decide
  simp only [decodeContent, henc]
  rw [if_pos trivial, b64encode_filter, b64decode_b64encode S h]

theorem base64_round_trip_witness :
    (∀ x ∈ asciiBytes "hi", x < 256) ∧
      decodeContent (b64encode (asciiBytes "hi")) "base64" = .ok (asciiBytes "hi") :=
  ⟨by decide, base64_round_trip (asciiBytes "hi") (by decide)⟩

/-- C9: for every source byte sequence and every charset registry, converting under
the names gb2312, gb18030 and gb-18030 in any letter case produces identical output,
because all three are normalized to the single gbk codec before the registry lookup. -/
theorem gb_aliases_agree (lookup : String → Option (List Nat → List Nat))
    (input : List Nat) (c1 c2 : String)
    (h1 : asciiToLower c1 = "gb2312" ∨ asciiToLower c1 = "gb18030" ∨
      asciiToLower c1 = "gb-18030")
    (h2 : asciiToLower c2 = "gb2312" ∨ asciiToLower c2 = "gb18030" ∨
      asciiToLower c2 = "gb-18030") :
    convertToUtf8 lookup c1 input = convertToUtf8 lookup c2 input := by
  have n1 : normalizeCharset c1 = "gbk" := by
    unfold normalizeCharset
    rcases h1 with h | h | h <;> simp [h]
  have n2 : normalizeCharset c2 = "gbk" := by
    unfold normalizeCharset
    rcases h2 with h | h | h <;> simp [h]
  simp [convertToUtf8, n1, n2]

theorem gb_aliases_agree_witness :
    (asciiToLower "GB2312" = "gb2312" ∨ asciiToLower "GB2312" = "gb18030" ∨
      asciiToLower "GB2312" = "gb-18030") ∧
    (asciiToLower "Gb-18030" = "gb2312" ∨ asciiToLower "Gb-18030" = "gb18030" ∨
      asciiToLower "Gb-18030" = "gb-18030") ∧
    convertToUtf8 lookupIdAll "GB2312" (asciiBytes "xyz") =
      convertToUtf8 lookupIdAll "Gb-18030" (asciiBytes "xyz") :=
  ⟨by decide, by decide,
    gb_aliases_agree lookupIdAll (asciiBytes "xyz") "GB2312" "Gb-18030"
      (by decide) (by decide)⟩

/-- C1: the claim says a From value that fails RFC 5322 address-list parsing makes the
decode call fail with that parse error. The code computes the error inside the
value-receiver method (first conjunct: the method's copy ends with the error), but the
caller's headerParser is never mutated, so createEmailFromHeader — whose own dead check
of hp.err mirrors the claimed behavior as the evident intent — returns no error and a
nil From list (second and third conjuncts). -/
theorem createEmailFromHeader_drops_address_error :
    (parseAddressList addrListFail ⟨none⟩ "bad@@").2 = some "mail: parse error in bad@@" ∧
    (createEmailFromHeader addrFail addrListFail timeNever hdrBadFrom).2 = none ∧
    (createEmailFromHeader addrFail addrListFail timeNever hdrBadFrom).1.fromA = [] := by
  refine ⟨by decide, by decide, by decide⟩

/-- C7: the date layout list is tried in order and the first success wins (second
conjunct, an oracle succeeding only on the second layout), an empty value is absent
with no error (third conjunct), and when every layout fails the method's copy ends
with the FINAL layout's error (first conjunct) — but the decode call drops it because
the Go receiver is a value: createEmailFromHeader returns no error and a zero date
(fourth and fifth conjuncts), against the claim's surfacing of the final layout's
error. -/
theorem parseTime_drops_final_error :
    parseTime timeNever ⟨none⟩ "garbage" =
      (none, some "parsing time garbage as Mon, 2 Jan 2006 15:04:05 -0700 (MST) failed") ∧
    parseTime timeSecondOnly ⟨none⟩ "x" = (some 42, none) ∧
    parseTime timeNever ⟨none⟩ "" = (none, none) ∧
    (createEmailFromHeader addrFail addrListFail timeNever hdrBadDate).2 = none ∧
    (createEmailFromHeader addrFail addrListFail timeNever hdrBadDate).1.date = none := by
  refine ⟨by decide, by decide, by decide, by decide, by decide⟩

/-- C2 counterexample: in the related walker a text/plain part declaring base64 is NOT
transfer-decoded first; the raw base64 text is appended, not the decoded content the
claim requires (decodeContent would have produced hello). -/
theorem relatedTextPart_not_transfer_decoded :
    parseMultipartRelated 1 [b64TextPart] [] [] [] = (asciiBytes "aGVsbG8=", [], [], none) ∧
    decodeContent b64TextPart.body b64TextPart.transferEncoding = .ok (asciiBytes "hello") ∧
    asciiBytes "aGVsbG8=" ≠ [] ++ trimNewline (asciiBytes "hello") := by
  refine ⟨by decide, by decide, by decide⟩

/-- C3 counterexample: per the claim, a part of the mixed walker that is neither text
nor nested multipart and declares a transfer encoding but no filename is classified as
an embedded file; the code instead fails the whole decode. -/
theorem mixed_embedded_part_rejected :
    isEmbeddedFile orphanPart = true ∧ isAttachment orphanPart = false ∧
    parseMultipartMixed 1 [orphanPart] [] [] [] [] =
      ([], [], [], [], some "Unknown multipart/mixed nested mime type: image/png") := by
  refine ⟨by decide, by decide, by decide⟩

/-- C4 counterexample: for the CRLF-terminated body the code trims only the trailing
LF, so the text body is hello followed by CR, not the claimed hello (here with a
detector reporting utf-8 and a registry resolving utf-8 to the identity codec, under
which the final charset stage leaves the ASCII bytes unchanged). -/
theorem singlePart_crlf_counterexample :
    ParseEmail 0 detectUtf8 lookupId helloMsg =
      (⟨"", "", asciiBytes "hello\r", [], [], [], none⟩, none) ∧
    asciiBytes "hello\r" ≠ asciiBytes "hello" := by
  refine ⟨by decide, by decide⟩

/-- C5 counterexample: the second part's unknown transfer encoding aborts the walker
with the unknown-encoding error (first conjunct), but the entire decode does NOT fail:
the text accumulated from the first sibling reaches the final charset stage, whose
successful conversion overwrites the Go named return err, and ParseEmail reports no
error (second conjunct). -/
theorem unknown_encoding_masked_at_top :
    parseMultipartAlternative 1 altBadMsg.subparts [] [] [] =
      (asciiBytes "hello", [], [], some "unknown encoding: quoted-nonsense") ∧
    (ParseEmail 1 detectUtf8 lookupId altBadMsg).2 = none := by
  refine ⟨by decide, by decide⟩

/-- C6 counterexample: with no declared charset and both bodies nonempty, the text
body's detected charset fails conversion (first conjunct): the text body is emptied and
the error stored — but the HTML body's subsequent successful conversion overwrites the
Go named return err, and the decode returns no error (second conjunct), against the
claim that a conversion failure is returned as the overall decode error. -/
theorem conversion_failure_masked :
    convertToUtf8String lookupId "bogus" (asciiBytes "T") =
      .error "unsupported charset: bogus" ∧
    ParseEmail 1 detectSplit lookupId mixedTHMsg =
      (⟨"multipart/mixed; boundary=b", "", [], asciiBytes "H", [], [], none⟩, none) := by
  refine ⟨by decide, by decide⟩

lemma parseMultipartAlternativeLoop_append
    (nested : List Part → List Nat × List Nat × List EmbeddedFile × Option String)
    (pre rest : List Part) :
    ∀ tb hb efs tb2 hb2 efs2,
      parseMultipartAlternativeLoop nested pre tb hb efs = (tb2, hb2, efs2, none) →
      parseMultipartAlternativeLoop nested (pre ++ rest) tb hb efs =
        parseMultipartAlternativeLoop nested rest tb2 hb2 efs2 := by
  induction pre with
  | nil =>
      intro tb hb efs tb2 hb2 efs2 h
      simp only [parseMultipartAlternativeLoop, Prod.mk.injEq] at h
      obtain ⟨rfl, rfl, rfl, -⟩ := h
      simp
  | cons q pre ih =>
      intro tb hb efs tb2 hb2 efs2 h
      simp only [List.cons_append, parseMultipartAlternativeLoop] at h ⊢
      by_cases c1 : q.contentType = "text/plain"
      · simp only [if_pos c1] at h ⊢
        cases hd : decodeContent q.body q.transferEncoding with
        | error e => rw [hd] at h; exact absurd h (by simp)
        | ok d => rw [hd] at h; exact ih _ _ _ _ _ _ h
      · simp only [if_neg c1] at h ⊢
        by_cases c2 : q.contentType = "text/html"
        · simp only [if_pos c2] at h ⊢
          cases hd : decodeContent q.body q.transferEncoding with
          | error e => rw [hd] at h; exact absurd h (by simp)
          | ok d => rw [hd] at h; exact ih _ _ _ _ _ _ h
        · simp only [if_neg c2] at h ⊢
          by_cases c3 : q.contentType = "multipart/related"
          · simp only [if_pos c3] at h ⊢
            rcases hn : nested q.subparts with ⟨t1, h1, ef1, e1⟩
            rw [hn] at h
            cases e1 with
            | some e => exact absurd h (by simp)
            | none => exact ih _ _ _ _ _ _ h
          · simp only [if_neg c3] at h ⊢
            by_cases c4 : isEmbeddedFile q = true
            · simp only [if_pos c4] at h ⊢
              cases hd : decodeEmbeddedFile q with
              | error e => rw [hd] at h; exact absurd h (by simp)
              | ok ef => rw [hd] at h; exact ih _ _ _ _ _ _ h
            · simp only [if_neg c4] at h ⊢
              exact absurd h (by simp)

lemma parseMultipartMixedLoop_append
    (nestedA nestedR : List Part → List Nat × List Nat × List EmbeddedFile × Option String)
    (pre rest : List Part) :
    ∀ tb hb atts efs tb2 hb2 atts2 efs2,
      parseMultipartMixedLoop nestedA nestedR pre tb hb atts efs =
        (tb2, hb2, atts2, efs2, none) →
      parseMultipartMixedLoop nestedA nestedR (pre ++ rest) tb hb atts efs =
        parseMultipartMixedLoop nestedA nestedR rest tb2 hb2 atts2 efs2 := by
  induction pre with
  | nil =>
      intro tb hb atts efs tb2 hb2 atts2 efs2 h
      simp only [parseMultipartMixedLoop, Prod.mk.injEq] at h
      obtain ⟨rfl, rfl, rfl, rfl, -⟩ := h
      simp
  | cons q pre ih =>
      intro tb hb atts efs tb2 hb2 atts2 efs2 h
      simp only [List.cons_append, parseMultipartMixedLoop] at h ⊢
      by_cases c1 : q.contentType = "multipart/alternative"
      · simp only [if_pos c1] at h ⊢
        rcases hn : nestedA q.subparts with ⟨t1, h1, ef1, e1⟩
        rw [hn] at h
        cases e1 with
        | some e => exact absurd h (by simp)
        | none => exact ih _ _ _ _ _ _ _ _ h
      · simp only [if_neg c1] at h ⊢
        by_cases c2 : q.contentType = "multipart/related"
        · simp only [if_pos c2] at h ⊢
          rcases hn : nestedR q.subparts with ⟨t1, h1, ef1, e1⟩
          rw [hn] at h
          cases e1 with
          | some e => exact absurd h (by simp)
          | none => exact ih _ _ _ _ _ _ _ _ h
        · simp only [if_neg c2] at h ⊢
          by_cases c3 : q.contentType = "text/plain"
          · simp only [if_pos c3] at h ⊢
            cases hd : decodeContent q.body q.transferEncoding with
            | error e => rw [hd] at h; exact absurd h (by simp)
            | ok d => rw [hd] at h; exact ih _ _ _ _ _ _ _ _ h
          · simp only [if_neg c3] at h ⊢
            by_cases c4 : q.contentType = "text/html"
            · simp only [if_pos c4] at h ⊢
              cases hd : decodeContent q.body q.transferEncoding with
              | error e => rw [hd] at h; exact absurd h (by simp)
              | ok d => rw [hd] at h; exact ih _ _ _ _ _ _ _ _ h
            · simp only [if_neg c4] at h ⊢
              by_cases c5 : isAttachment q = true
              · simp only [if_pos c5] at h ⊢
                cases hd : decodeAttachment q with
                | error e => rw [hd] at h; exact absurd h (by simp)
                | ok a => rw [hd] at h; exact ih _ _ _ _ _ _ _ _ h
              · simp only [if_neg c5] at h ⊢
                exact absurd h (by simp)

/-- C10: in the mixed walker a nested multipart/alternative or multipart/related part's
walk results are ASSIGNED over — not appended to — the text, HTML and embedded-file
accumulators (only the attachments accumulator survives), so for a mixed body whose
k-th part is such a nested multipart, all text, HTML and embedded files accumulated
from the parts before the k-th are absent from the returned result. -/
theorem mixed_nested_assignment_replaces (f : Nat) (p : Part) (pre rest : List Part)
    (tb hb t h : List Nat) (atts : List Attachment) (efs ef : List EmbeddedFile)
    (tp hp : List Nat) (ap : List Attachment) (ep : List EmbeddedFile) :
    (p.contentType = "multipart/alternative" →
      parseMultipartAlternative f p.subparts [] [] [] = (t, h, ef, none) →
      parseMultipartMixed (f + 1) (p :: rest) tb hb atts efs =
        parseMultipartMixed (f + 1) rest t h atts ef) ∧
    (p.contentType = "multipart/related" →
      parseMultipartRelated f p.subparts [] [] [] = (t, h, ef, none) →
      parseMultipartMixed (f + 1) (p :: rest) tb hb atts efs =
        parseMultipartMixed (f + 1) rest t h atts ef) ∧
    (p.contentType = "multipart/alternative" →
      parseMultipartAlternative f p.subparts [] [] [] = (t, h, ef, none) →
      parseMultipartMixed (f + 1) pre [] [] [] [] = (tp, hp, ap, ep, none) →
      parseMultipartMixed (f + 1) (pre ++ p :: rest) [] [] [] [] =
        parseMultipartMixed (f + 1) rest t h ap ef) := by
  refine ⟨?_, ?_, ?_⟩
  · intro hct hn
    simp only [parseMultipartMixed, parseMultipartMixedLoop, hct, hn]
    exact if_pos trivial
  · intro hct hn
    simp only [parseMultipartMixed, parseMultipartMixedLoop, hct, hn]
    rw [if_neg (by simp), if_pos trivial]
  · intro hct hn hpre
    simp only [parseMultipartMixed] at hpre ⊢
    rw [parseMultipartMixedLoop_append _ _ pre (p :: rest) _ _ _ _ _ _ _ _ hpre]
    simp only [parseMultipartMixedLoop, hct, hn]
    exact if_pos trivial

theorem mixed_nested_assignment_replaces_witness :
    parseMultipartMixed 1 [altContainer] (asciiBytes "pre") (asciiBytes "preH") []
        [⟨"c", "image/png", []⟩] =
      parseMultipartMixed 1 [] [] (asciiBytes "H") [] [] ∧
    parseMultipartMixed 1 ([textPartT] ++ [altContainer]) [] [] [] [] =
      parseMultipartMixed 1 [] [] (asciiBytes "H") [] [] :=
  ⟨(mixed_nested_assignment_replaces 0 altContainer [] [] (asciiBytes "pre")
      (asciiBytes "preH") [] (asciiBytes "H") [] [⟨"c", "image/png", []⟩] []
      (asciiBytes "T") [] [] []).1 (by decide) (by decide),
   (mixed_nested_assignment_replaces 0 altContainer [textPartT] [] (asciiBytes "pre")
      (asciiBytes "preH") [] (asciiBytes "H") [] [⟨"c", "image/png", []⟩] []
      (asciiBytes "T") [] [] []).2.2 (by decide) (by decide) (by decide)⟩

/-- C2 (amended): in the mixed and alternative walkers a text/plain or text/html part
has its declared transfer encoding decoded first and the decoded content, one trailing
newline trimmed, appended to the respective accumulator by concatenation; in the
related walker the part's RAW content is appended with one trailing newline trimmed,
WITHOUT transfer decoding. -/
theorem textParts_decode_then_append (fuel : Nat) (p : Part) (rest : List Part)
    (tb hb : List Nat) (atts : List Attachment) (efs : List EmbeddedFile)
    (d : List Nat) :
    (p.contentType = "text/plain" → decodeContent p.body p.transferEncoding = .ok d →
      parseMultipartAlternative fuel (p :: rest) tb hb efs =
        parseMultipartAlternative fuel rest (tb ++ trimNewline d) hb efs) ∧
    (p.contentType = "text/html" → decodeContent p.body p.transferEncoding = .ok d →
      parseMultipartAlternative fuel (p :: rest) tb hb efs =
        parseMultipartAlternative fuel rest tb (hb ++ trimNewline d) efs) ∧
    (p.contentType = "text/plain" → decodeContent p.body p.transferEncoding = .ok d →
      parseMultipartMixed fuel (p :: rest) tb hb atts efs =
        parseMultipartMixed fuel rest (tb ++ trimNewline d) hb atts efs) ∧
    (p.contentType = "text/html" → decodeContent p.body p.transferEncoding = .ok d →
      parseMultipartMixed fuel (p :: rest) tb hb atts efs =
        parseMultipartMixed fuel rest tb (hb ++ trimNewline d) atts efs) ∧
    (p.contentType = "text/plain" →
      parseMultipartRelated fuel (p :: rest) tb hb efs =
        parseMultipartRelated fuel rest (tb ++ trimNewline p.body) hb efs) ∧
    (p.contentType = "text/html" →
      parseMultipartRelated fuel (p :: rest) tb hb efs =
        parseMultipartRelated fuel rest tb (hb ++ trimNewline p.body) efs) := by
  refine ⟨?_, ?_, ?_, ?_, ?_, ?_⟩
  · intro hct hd
    cases fuel
    all_goals
      (simp only [parseMultipartAlternative, parseMultipartAlternativeLoop, hct, hd];
        exact if_pos trivial)
  · intro hct hd
    cases fuel
    all_goals
      (simp only [parseMultipartAlternative, parseMultipartAlternativeLoop, hct, hd];
        rw [if_neg (by simp), if_pos trivial])
  · intro hct hd
    cases fuel
    all_goals
      (simp only [parseMultipartMixed, parseMultipartMixedLoop, hct, hd];
        rw [if_neg (by simp), if_neg (by simp), if_pos trivial])
  · intro hct hd
    cases fuel
    all_goals
      (simp only [parseMultipartMixed, parseMultipartMixedLoop, hct, hd];
        rw [if_neg (by simp), if_neg (by simp), if_neg (by simp), if_pos trivial])
  · intro hct
    cases fuel
    all_goals
      (simp only [parseMultipartRelated, parseMultipartRelatedLoop, hct];
        exact if_pos trivial)
  · intro hct
    cases fuel
    all_goals
      (simp only [parseMultipartRelated, parseMultipartRelatedLoop, hct];
        rw [if_neg (by simp), if_pos trivial])

theorem textParts_decode_then_append_witness :
    parseMultipartAlternative 1 [okTextPart] [] [] [] =
      parseMultipartAlternative 1 [] ([] ++ trimNewline (asciiBytes "hello\n")) [] [] ∧
    parseMultipartRelated 1 [b64TextPart] [] [] [] =
      parseMultipartRelated 1 [] ([] ++ trimNewline b64TextPart.body) [] [] :=
  ⟨(textParts_decode_then_append 1 okTextPart [] [] [] [] [] (asciiBytes "hello\n")).1
      (by decide) (by decide),
    (textParts_decode_then_append 1 b64TextPart [] [] [] [] [] []).2.2.2.2.1
      (by decide)⟩

/-- C3 (amended): a part that is neither text/plain, text/html nor a nested multipart
is classified asymmetrically: the mixed walker makes it an attachment when it declares
a filename and otherwise fails the whole decode (it has no embedded-file branch, even
when a transfer encoding is declared); the alternative and related walkers make it an
embedded file when it declares a transfer-encoding header (even when a filename is
declared, they have no attachment branch) and otherwise fail; each failure's error
names the offending content type and the enclosing multipart kind. -/
theorem part_classification (fuel : Nat) (p : Part) (rest : List Part)
    (tb hb : List Nat) (atts : List Attachment) (efs : List EmbeddedFile)
    (hp1 : p.contentType ≠ "text/plain") (hp2 : p.contentType ≠ "text/html")
    (hp3 : p.contentType ≠ "multipart/alternative")
    (hp4 : p.contentType ≠ "multipart/related") :
    (∀ a, decodeAttachment p = .ok a → p.fileName ≠ "" →
      parseMultipartMixed fuel (p :: rest) tb hb atts efs =
        parseMultipartMixed fuel rest tb hb (atts ++ [a]) efs) ∧
    (p.fileName = "" →
      parseMultipartMixed fuel (p :: rest) tb hb atts efs =
        (tb, hb, atts, efs,
          some ("Unknown multipart/mixed nested mime type: " ++ p.contentType))) ∧
    (∀ ef, decodeEmbeddedFile p = .ok ef → p.transferEncoding ≠ "" →
      parseMultipartAlternative fuel (p :: rest) tb hb efs =
        parseMultipartAlternative fuel rest tb hb (efs ++ [ef])) ∧
    (p.transferEncoding = "" →
      parseMultipartAlternative fuel (p :: rest) tb hb efs =
        (tb, hb, efs,
          some ("Can't process multipart/alternative inner mime type: " ++
            p.contentType))) ∧
    (∀ ef, decodeEmbeddedFile p = .ok ef → p.transferEncoding ≠ "" →
      parseMultipartRelated fuel (p :: rest) tb hb efs =
        parseMultipartRelated fuel rest tb hb (efs ++ [ef])) ∧
    (p.transferEncoding = "" →
      parseMultipartRelated fuel (p :: rest) tb hb efs =
        (tb, hb, efs,
          some ("Can't process multipart/related inner mime type: " ++
            p.contentType))) := by
  refine ⟨?_, ?_, ?_, ?_, ?_, ?_⟩
  · intro a hda hfn
    have hat : isAttachment p = true := by simp [isAttachment, hfn]
    cases fuel
    all_goals
      (simp only [parseMultipartMixed, parseMultipartMixedLoop, hda];
        rw [if_neg hp3, if_neg hp4, if_neg hp1, if_neg hp2, if_pos hat])
  · intro hfn
    have hat : isAttachment p = false := by simp [isAttachment, hfn]
    cases fuel
    all_goals
      (simp only [parseMultipartMixed, parseMultipartMixedLoop];
        rw [if_neg hp3, if_neg hp4, if_neg hp1, if_neg hp2, if_neg (by simp [hat])])
  · intro ef hde hte
    have hef : isEmbeddedFile p = true := by simp [isEmbeddedFile, hte]
    cases fuel
    all_goals
      (simp only [parseMultipartAlternative, parseMultipartAlternativeLoop, hde];
        rw [if_neg hp1, if_neg hp2, if_neg hp4, if_pos hef])
  · intro hte
    have hef : isEmbeddedFile p = false := by simp [isEmbeddedFile, hte]
    cases fuel
    all_goals
      (simp only [parseMultipartAlternative, parseMultipartAlternativeLoop];
        rw [if_neg hp1, if_neg hp2, if_neg hp4, if_neg (by simp [hef])])
  · intro ef hde hte
    have hef : isEmbeddedFile p = true := by simp [isEmbeddedFile, hte]
    cases fuel
    all_goals
      (simp only [parseMultipartRelated, parseMultipartRelatedLoop, hde];
        rw [if_neg hp1, if_neg hp2, if_neg hp3, if_pos hef])
  · intro hte
    have hef : isEmbeddedFile p = false := by simp [isEmbeddedFile, hte]
    cases fuel
    all_goals
      (simp only [parseMultipartRelated, parseMultipartRelatedLoop];
        rw [if_neg hp1, if_neg hp2, if_neg hp3, if_neg (by simp [hef])])

theorem part_classification_witness :
    parseMultipartMixed 1 [attachPart] [] [] [] [] =
      parseMultipartMixed 1 [] [] [] ([] ++ [⟨"a.pdf", "application/pdf",
        asciiBytes "hello"⟩]) [] ∧
    parseMultipartAlternative 1 [orphanPart] [] [] [] =
      parseMultipartAlternative 1 [] [] [] ([] ++ [⟨"cid1", "image/png", []⟩]) ∧
    parseMultipartRelated 1 [plainOddPart] [] [] [] =
      ([], [], [], some ("Can't process multipart/related inner mime type: " ++
        plainOddPart.contentType)) :=
  ⟨(part_classification 1 attachPart [] [] [] [] [] (by decide) (by decide) (by decide)
      (by decide)).1 ⟨"a.pdf", "application/pdf", asciiBytes "hello"⟩ (by decide)
      (by decide),
   (part_classification 1 orphanPart [] [] [] [] [] (by decide) (by decide) (by decide)
      (by decide)).2.2.1 ⟨"cid1", "image/png", []⟩ (by decide) (by decide),
   (part_classification 1 plainOddPart [] [] [] [] [] (by decide) (by decide)
      (by decide) (by decide)).2.2.2.2.2 (by decide)⟩

/-- C4 (amended): for the single-part message with absent content type (defaulting to
text/plain), no declared charset and CRLF-terminated body, ParseEmail yields the text
body hello followed by a carriage return — only the trailing LF is trimmed, the CR is
kept — and no error, for every detector and every registry resolving each name to the
identity codec (under which the final charset stage leaves the ASCII body unchanged). -/
theorem singlePart_crlf_amended (detect : List Nat → Option String)
    (lookup : String → Option (List Nat → List Nat))
    (hid : ∀ cs, lookup cs = some (fun b => b)) :
    ParseEmail 0 detect lookup helloMsg =
      (⟨"", "", asciiBytes "hello\r", [], [], [], none⟩, none) := by
  have h3 : ∀ cs, convertToUtf8String lookup cs (asciiBytes "hello\r") =
      .ok (asciiBytes "hello\r") := by
    intro cs
    simp [convertToUtf8String, convertToUtf8, hid]
  have hne : asciiBytes "hello\r" ≠ [] := by decide
  have key : resolveBody detect lookup "" (asciiBytes "hello\r") none =
      (asciiBytes "hello\r", none) := by
    cases hdet : detect (asciiBytes "hello\r") with
    | none => simp [resolveBody, hdet, hne]
    | some cs => simp [resolveBody, hdet, hne, h3]
  have hempty : resolveBody detect lookup "" ([] : List Nat) none = ([], none) := by
    simp [resolveBody]
  show finishCharset detect lookup helloMsg (asciiBytes "hello\r") [] [] [] none none = _
  have ho : helloMsg.originalCharset = "" := rfl
  simp only [finishCharset, ho, key, hempty]
  rfl

theorem singlePart_crlf_amended_witness :
    (∀ cs, lookupIdAll cs = some (fun b : List Nat => b)) ∧
    ParseEmail 0 detectNone lookupIdAll helloMsg =
      (⟨"", "", asciiBytes "hello\r", [], [], [], none⟩, none) :=
  ⟨fun _ => rfl, singlePart_crlf_amended detectNone lookupIdAll (fun _ => rfl)⟩

/-- C5 (amended): the Content Decoder fails on every token outside the recognized set
with an unknown-encoding error naming the offending token (first conjunct); the
alternative walker, whatever sibling prefix it has already processed cleanly, aborts at
a text/plain part whose declared transfer encoding fails to decode and returns exactly
that error (second conjunct); and the overall decode fails with that error provided no
text or HTML body text had accumulated before the failure (third conjunct) — when body
text HAS accumulated, the final charset stage can overwrite the error, so the
entire-decode claim fails there (see the counterexample). -/
theorem unknown_encoding_aborts (content : List Nat) (encoding : String) (fuel : Nat)
    (pre rest : List Part) (p : Part) (t h : List Nat) (ef efm : List EmbeddedFile)
    (e : String) (detect : List Nat → Option String)
    (lookup : String → Option (List Nat → List Nat)) (msg : TopMessage) :
    (asciiToLower (goTrimSpace encoding) ≠ "base64" →
      asciiToLower (goTrimSpace encoding) ≠ "7bit" →
      asciiToLower (goTrimSpace encoding) ≠ "8bit" →
      asciiToLower (goTrimSpace encoding) ≠ "binary" →
      asciiToLower (goTrimSpace encoding) ≠ "quoted-printable" →
      asciiToLower (goTrimSpace encoding) ≠ "quotedprintable" →
      asciiToLower (goTrimSpace encoding) ≠ "" →
      decodeContent content encoding = .error ("unknown encoding: " ++ encoding)) ∧
    (parseMultipartAlternative fuel pre [] [] [] = (t, h, ef, none) →
      p.contentType = "text/plain" →
      decodeContent p.body p.transferEncoding = .error e →
      parseMultipartAlternative fuel (pre ++ p :: rest) [] [] [] = (t, h, ef, some e)) ∧
    (msg.contentTypeHeader ≠ "" → msg.mediaType = "multipart/alternative" →
      parseMultipartAlternative fuel msg.subparts [] [] [] = ([], [], efm, some e) →
      (ParseEmail fuel detect lookup msg).2 = some e) := by
  refine ⟨?_, ?_, ?_⟩
  · intro h1 h2 h3 h4 h5 h6 h7
    simp only [decodeContent]
    rw [if_neg h1, if_neg (by simp [h2, h3, h4]), if_neg (by simp [h5, h6]), if_neg h7]
  · intro hpre hct hd
    cases fuel
    all_goals
      (simp only [parseMultipartAlternative] at hpre ⊢;
        rw [parseMultipartAlternativeLoop_append _ pre (p :: rest) _ _ _ _ _ _ hpre];
        simp only [parseMultipartAlternativeLoop, hct, hd];
        exact if_pos trivial)
  · intro hhd hmt hw
    have hctv : parseContentType msg.contentTypeHeader msg.mediaType =
        "multipart/alternative" := by
      unfold parseContentType
      rw [if_neg hhd]
      exact hmt
    simp only [ParseEmail, hctv]
    rw [if_neg (by simp), if_pos trivial, hw]
    simp [finishCharset, resolveBody]

theorem unknown_encoding_aborts_witness :
    decodeContent [] "quoted-nonsense" = .error "unknown encoding: quoted-nonsense" ∧
    parseMultipartAlternative 1 ([okTextPart] ++ badEncPart :: []) [] [] [] =
      (asciiBytes "hello", [], [], some "unknown encoding: quoted-nonsense") ∧
    (ParseEmail 1 detectUtf8 lookupId
      ⟨"multipart/alternative; boundary=b", "multipart/alternative", "", [],
        [badEncPart], ""⟩).2 = some "unknown encoding: quoted-nonsense" :=
  ⟨(unknown_encoding_aborts [] "quoted-nonsense" 1 [] [] badEncPart [] [] [] []
      "unknown encoding: quoted-nonsense" detectUtf8 lookupId helloMsg).1
      (by decide) (by decide) (by decide) (by decide) (by decide) (by decide)
      (by decide),
   (unknown_encoding_aborts [] "quoted-nonsense" 1 [okTextPart] [] badEncPart
      (asciiBytes "hello") [] [] [] "unknown encoding: quoted-nonsense" detectUtf8
      lookupId helloMsg).2.1 (by decide) (by decide) (by decide),
   (unknown_encoding_aborts [] "quoted-nonsense" 1 [] [] badEncPart [] [] [] []
      "unknown encoding: quoted-nonsense" detectUtf8 lookupId
      ⟨"multipart/alternative; boundary=b", "multipart/alternative", "", [],
        [badEncPart], ""⟩).2.2 (by decide) (by decide) (by decide)⟩

lemma resolveBody_declared_ok (detect : List Nat → Option String)
    (lookup : String → Option (List Nat → List Nat)) (oc : String) (b : List Nat)
    (e0 : Option String) (t : List Nat) (h1 : oc ≠ "") (h2 : b ≠ [])
    (h3 : convertToUtf8String lookup oc b = .ok t) :
    resolveBody detect lookup oc b e0 = (t, none) := by
  simp only [resolveBody]
  rw [if_pos h2, if_pos h1, h3]

lemma resolveBody_declared_err (detect : List Nat → Option String)
    (lookup : String → Option (List Nat → List Nat)) (oc : String) (b : List Nat)
    (e0 : Option String) (e : String) (h1 : oc ≠ "") (h2 : b ≠ [])
    (h3 : convertToUtf8String lookup oc b = .error e) :
    resolveBody detect lookup oc b e0 = ([], some e) := by
  simp only [resolveBody]
  rw [if_pos h2, if_pos h1, h3]

lemma resolveBody_detected_ok (detect : List Nat → Option String)
    (lookup : String → Option (List Nat → List Nat)) (oc : String) (b : List Nat)
    (e0 : Option String) (cs : String) (t : List Nat) (h1 : oc = "") (h2 : b ≠ [])
    (hdet : detect b = some cs) (h3 : convertToUtf8String lookup cs b = .ok t) :
    resolveBody detect lookup oc b e0 = (t, none) := by
  simp only [resolveBody]
  rw [if_pos h2, if_neg (by simp [h1])]
  simp only [hdet, h3]

lemma resolveBody_detect_fail (detect : List Nat → Option String)
    (lookup : String → Option (List Nat → List Nat)) (oc : String) (b : List Nat)
    (e0 : Option String) (h1 : oc = "") (hdet : detect b = none) :
    resolveBody detect lookup oc b e0 = (b, e0) := by
  by_cases h2 : b = []
  · simp only [resolveBody]
    rw [if_neg (by simp [h2])]
  · simp only [resolveBody]
    rw [if_pos h2, if_neg (by simp [h1]), hdet]

lemma finishCharset_eq (detect : List Nat → Option String)
    (lookup : String → Option (List Nat → List Nat)) (msg : TopMessage)
    (tb hb : List Nat) (atts : List Attachment) (efs : List EmbeddedFile)
    (content : Option (List Nat)) (err0 : Option String) :
    finishCharset detect lookup msg tb hb atts efs content err0 =
      (⟨msg.contentTypeHeader, msg.originalCharset,
        (resolveBody detect lookup msg.originalCharset tb err0).1,
        (resolveBody detect lookup msg.originalCharset hb
          (resolveBody detect lookup msg.originalCharset tb err0).2).1,
        atts, efs, content⟩,
       (resolveBody detect lookup msg.originalCharset hb
         (resolveBody detect lookup msg.originalCharset tb err0).2).2) := by
  rcases h1 : resolveBody detect lookup msg.originalCharset tb err0 with ⟨tb1, e1⟩
  rcases h2 : resolveBody detect lookup msg.originalCharset hb e1 with ⟨hb1, e2⟩
  simp only [finishCharset, h1, h2]

/-- C6 (amended): for a mixed message, the final charset resolution touches only the
assembled text and HTML bodies, never the attachment or embedded-file bytes (first
conjunct); a declared original charset is used for the conversion (second conjunct),
otherwise the detector's best guess is (third conjunct); a detection failure leaves the
bodies unchanged with no error of its own (fourth conjunct); and a conversion failure
is surfaced as the decode error when it is not overwritten by a later conversion — the
HTML body is converted last, so its failure always surfaces (fifth conjunct), whereas a
text-body conversion failure can be masked by a subsequent successful HTML-body
conversion (see the counterexample). -/
theorem charset_policy (fuel : Nat) (detect : List Nat → Option String)
    (lookup : String → Option (List Nat → List Nat)) (msg : TopMessage)
    (tb hb : List Nat) (atts : List Attachment) (efs : List EmbeddedFile)
    (werr : Option String)
    (hhd : msg.contentTypeHeader ≠ "") (hmt : msg.mediaType = "multipart/mixed")
    (hw : parseMultipartMixed fuel msg.subparts [] [] [] [] =
      (tb, hb, atts, efs, werr)) :
    ((ParseEmail fuel detect lookup msg).1.attachments = atts ∧
      (ParseEmail fuel detect lookup msg).1.embeddedFiles = efs) ∧
    (∀ t, msg.originalCharset ≠ "" → tb ≠ [] →
      convertToUtf8String lookup msg.originalCharset tb = .ok t →
      (ParseEmail fuel detect lookup msg).1.textBody = t) ∧
    (∀ cs t, msg.originalCharset = "" → tb ≠ [] → detect tb = some cs →
      convertToUtf8String lookup cs tb = .ok t →
      (ParseEmail fuel detect lookup msg).1.textBody = t) ∧
    (msg.originalCharset = "" → detect tb = none → detect hb = none → werr = none →
      (ParseEmail fuel detect lookup msg).1.textBody = tb ∧
      (ParseEmail fuel detect lookup msg).1.htmlBody = hb ∧
      (ParseEmail fuel detect lookup msg).2 = none) ∧
    (∀ e, msg.originalCharset ≠ "" → hb ≠ [] →
      convertToUtf8String lookup msg.originalCharset hb = .error e →
      (ParseEmail fuel detect lookup msg).2 = some e) := by
  have hctv : parseContentType msg.contentTypeHeader msg.mediaType =
      "multipart/mixed" := by
    unfold parseContentType
    rw [if_neg hhd]
    exact hmt
  have hP : ParseEmail fuel detect lookup msg =
      finishCharset detect lookup msg tb hb atts efs none werr := by
    simp only [ParseEmail, hctv]
    rw [if_pos trivial, hw]
  rw [hP, finishCharset_eq]
  refine ⟨⟨rfl, rfl⟩, ?_, ?_, ?_, ?_⟩
  · intro t h1 h2 h3
    rw [resolveBody_declared_ok detect lookup _ _ _ _ h1 h2 h3]
  · intro cs t h1 h2 hdet h3
    rw [resolveBody_detected_ok detect lookup _ _ _ _ _ h1 h2 hdet h3]
  · intro h1 hd1 hd2 hwerr
    rw [resolveBody_detect_fail detect lookup _ _ _ h1 hd1,
      resolveBody_detect_fail detect lookup _ _ _ h1 hd2, hwerr]
    exact ⟨rfl, rfl, rfl⟩
  · intro e h1 h2 h3
    rw [resolveBody_declared_err detect lookup _ _ _ _ h1 h2 h3]

theorem charset_policy_witness :
    ((ParseEmail 1 detectNone lookupIdAll mixedTHMsg).1.attachments = [] ∧
      (ParseEmail 1 detectNone lookupIdAll mixedTHMsg).1.embeddedFiles = []) ∧
    ((ParseEmail 1 detectNone lookupIdAll mixedTHMsg).1.textBody = asciiBytes "T" ∧
      (ParseEmail 1 detectNone lookupIdAll mixedTHMsg).1.htmlBody = asciiBytes "H" ∧
      (ParseEmail 1 detectNone lookupIdAll mixedTHMsg).2 = none) ∧
    (ParseEmail 1 detectNone lookupId mixedDeclaredMsg).2 =
      some "unsupported charset: koi8-r" :=
  ⟨(charset_policy 1 detectNone lookupIdAll mixedTHMsg (asciiBytes "T")
      (asciiBytes "H") [] [] none (by decide) (by decide) (by decide)).1,
   (charset_policy 1 detectNone lookupIdAll mixedTHMsg (asciiBytes "T")
      (asciiBytes "H") [] [] none (by decide) (by decide) (by decide)).2.2.2.1
      (by decide) (by decide) (by decide) (by decide),
   (charset_policy 1 detectNone lookupId mixedDeclaredMsg (asciiBytes "T")
      (asciiBytes "H") [] [] none (by decide) (by decide) (by decide)).2.2.2.2
      "unsupported charset: koi8-r" (by decide) (by decide) (by decide)⟩

end Smtpsrv
